import Mathlib

/-!
Shallow embedding of `pkg/processor/runtime/python/py/observable_executor.py`
(digitalhub-serverless).  Python dictionaries become association lists,
attribute access on the dynamic context object becomes lookup in an
attribute map (with the one-argument `getattr` raising a modelled
`AttributeError` when the attribute is missing), exceptions become an
`Except` result, and calls on the span / metric collaborators become an
explicit list of emitted telemetry operations.
-/

namespace ObservableExecutor

/-- Python scalar values that appear as attribute values, handler results
and context-attribute contents in the embedded module.  A structured
`nuclio_sdk.Response` is one constructor; everything else the claims need
is covered by none / int / str. -/
inductive PyVal where
  | pyNone : PyVal
  | int (n : Int) : PyVal
  | str (s : String) : PyVal
  | resp (status_code : Int) (headers : Option (List (String × String)))
      (size : Option Int) (body : Option String) : PyVal
deriving DecidableEq, Repr

/-- Modelled Python exceptions: the user handler's own exception (tagged),
`TypeError` (e.g. `len` of a value with no length), `AttributeError`
from one-argument `getattr` on a missing attribute, and `ValueError`
(e.g. from the `SplitResult.port` property on a malformed URL port). -/
inductive PyErr where
  | handlerExc (tag : String) : PyErr
  | typeError (msg : String) : PyErr
  | attributeError (name : String) : PyErr
  | valueError (msg : String) : PyErr
deriving DecidableEq, Repr

deriving instance DecidableEq for Except

/-- The per-invocation attribute dictionary (`attributes` in the source):
an insertion-ordered association list with unique keys. -/
abbrev AttrSet := List (String × PyVal)

/-- Python dict assignment `d[k] = v`: overwrite in place if the key is
present (keys are unique in a dict), else append at the end. -/
def setAttr (m : AttrSet) (k : String) (v : PyVal) : AttrSet :=
  match m with
  | [] => [(k, v)]
  | kv :: t => if kv.1 = k then (k, v) :: t else kv :: setAttr t k v

/-- Python dict lookup `d.get(k)` / `k in d`. -/
def getAttr? (m : AttrSet) (k : String) : Option PyVal :=
  match m with
  | [] => none
  | kv :: t => if kv.1 = k then some kv.2 else getAttr? t k

/-- Python `len` on the values a response can be: only strings (our model
of str/bytes bodies) have a length; `len` of anything else raises
`TypeError`. -/
def pyLen : PyVal → Except PyErr Int
  | .str s => .ok (s.length : Int)
  | _ => .error (.typeError "object has no len")

/-- Python truthiness of an optional string field (`if event.url:`):
`None` and the empty string are falsy. -/
def optStrTruthy : Option String → Bool
  | none => false
  | some s => s ≠ ""

/-- Python truthiness of an optional int (`if parsed_url.port:`). -/
def optIntTruthy : Option Int → Bool
  | none => false
  | some n => n ≠ 0

/-- Python truthiness of an optional headers dict (`if event.headers:`):
`None` and the empty dict are falsy. -/
def headersTruthy : Option (List (String × String)) → Bool
  | none => false
  | some hs => !hs.isEmpty

/-- Splitting helper for the model of Python `str.split(sep)` with a
one-character separator: split the character list at every separator
occurrence (a list with no separator yields one piece, so `""` yields
`[""]`, as in Python). -/
def splitCharAux (sep : Char) (cs : List Char) (acc : List Char) : List (List Char) :=
  match cs with
  | [] => [acc.reverse]
  | c :: t => if c = sep then acc.reverse :: splitCharAux sep t [] else splitCharAux sep t (c :: acc)

/-- Model of Python `str.split(sep)` for a one-character separator. -/
def pySplit (s : String) (sep : Char) : List String :=
  (splitCharAux sep s.data []).map fun l => String.mk l

/-- Model of Python `str.strip()`: drop whitespace from both ends. -/
def pyStrip (s : String) : String :=
  String.mk
    ((((s.data.dropWhile (fun c => c.isWhitespace)).reverse).dropWhile
      (fun c => c.isWhitespace)).reverse)

/-- Model of Python `str.lower()`. -/
def pyLower (s : String) : String :=
  String.mk (s.data.map Char.toLower)

/-- Decimal digit-run parser backing the model of Python `int(str)`. -/
def digitsToNat? (cs : List Char) : Option Nat :=
  if cs.isEmpty then none
  else if cs.all (fun c => c.isDigit) then
    some (cs.foldl (fun n c => 10 * n + (c.toNat - 48)) 0)
  else none

/-- Case-insensitive header dict `.get(k)` (exact-key lookup, as in the
source, which probes both spellings itself). -/
def hget (hs : List (String × String)) (k : String) : Option String :=
  (hs.find? (fun kv => kv.1 = k)).map (fun kv => kv.2)

/-- Python `a or b` over two optional strings, where `None` and `""` are
falsy: yields the first truthy operand, else the second operand. -/
def pyOrStr (a b : Option String) : Option String :=
  if optStrTruthy a then a else b

/-- Model of Python `int(s)` on a string: optional sign followed by
digits (surrounding whitespace stripped); any other shape raises
`ValueError`, modelled as `none`. -/
def parsePyInt (s : String) : Option Int :=
  match (pyStrip s).data with
  | [] => none
  | c :: rest =>
    if c = '-' then (digitsToNat? rest).map (fun n => -(n : Int))
    else if c = '+' then (digitsToNat? rest).map (fun n => (n : Int))
    else (digitsToNat? (c :: rest)).map (fun n => (n : Int))

/-- Model of `os.getenv(name, default)`: the environment value when the
variable is set (even to the empty string), else the default. -/
def getenvD (env : Option String) (dflt : String) : String :=
  env.getD dflt

/-- `is_tracing_enabled` from the source: unconditionally `True`. -/
def is_tracing_enabled : Bool := true

/-- `is_metrics_enabled` from the source: unconditionally `True`. -/
def is_metrics_enabled : Bool := true

/-- `get_profiles` from the source, with the value of the
`OTEL_ENABLED_PROFILES` environment variable (`none` = unset) made an
explicit argument:
`os.getenv(V, "http").split(",") if os.getenv(V, "http") else ["http"]`. -/
def get_profiles (env : Option String) : List String :=
  if getenvD env "http" ≠ "" then pySplit (getenvD env "http") ',' else ["http"]

/-- `HTTPProfileProcessor.is_content_tracing_enabled` from the source,
with the `OTEL_TRACING_CONTENT` environment value explicit:
`os.getenv(OTE_TRACING_CONTENT, "false").lower() == "true"`. -/
def is_content_tracing_enabled (env : Option String) : Bool :=
  pyLower (getenvD env "false") = "true"

/-- `_filter_attrs` from the source: iterate the entries in order and
keep exactly those whose key occurs in `names`. -/
def _filter_attrs (attrs : AttrSet) (names : List String) : AttrSet :=
  match attrs with
  | [] => []
  | kv :: t =>
    if names.contains kv.1 then kv :: _filter_attrs t names else _filter_attrs t names

/-- The single implemented profile processor variant (`HTTPProfileProcessor`
is the only subclass of `ProfileProcessor` in the source). -/
inductive ProfileProc where
  | http : ProfileProc
deriving DecidableEq, Repr

/-- Values stored as attributes of the dynamic Nuclio context object:
`None`, an opaque non-None collaborator handle (tracer, meter, metric
instrument), a boolean flag, or the profile-processor list. -/
inductive CtxVal where
  | pyNone : CtxVal
  | handle (name : String) : CtxVal
  | bool (b : Bool) : CtxVal
  | processors (ps : List ProfileProc) : CtxVal
deriving DecidableEq, Repr

/-- Python truthiness of a context value (`if active_request_counter:`). -/
def ctxTruthy : CtxVal → Bool
  | .pyNone => false
  | .handle _ => true
  | .bool b => b
  | .processors ps => !ps.isEmpty

/-- The dynamic context object, as the attribute map `setattr`/`getattr`
operate on. -/
abbrev Ctx := List (String × CtxVal)

/-- Python `setattr(ctx, name, v)`: overwrite in place if present, else
append. -/
def setattrCtx (ctx : Ctx) (name : String) (v : CtxVal) : Ctx :=
  match ctx with
  | [] => [(name, v)]
  | kv :: t => if kv.1 = name then (name, v) :: t else kv :: setattrCtx t name v

/-- One-argument Python `getattr(ctx, name)`: raises `AttributeError`
when the attribute is missing. -/
def getattrE (ctx : Ctx) (name : String) : Except PyErr CtxVal :=
  match ctx with
  | [] => .error (.attributeError name)
  | kv :: t => if kv.1 = name then .ok kv.2 else getattrE t name

/-- Two-argument Python `getattr(ctx, name, default)`. -/
def getattrD (ctx : Ctx) (name : String) (dflt : CtxVal) : CtxVal :=
  match ctx with
  | [] => dflt
  | kv :: t => if kv.1 = name then kv.2 else getattrD t name dflt

/-- Telemetry operations emitted on the span / metric collaborators, in
program order. -/
inductive Op where
  | spanStart (name : String) : Op
  | setStatusError : Op
  | recordException (e : PyErr) : Op
  | setAttributes (attrs : AttrSet) : Op
  | spanEnd : Op
  | counterAdd (instrument : CtxVal) (delta : Int) (tags : AttrSet) : Op
  | histRecord (instrument : CtxVal) (value : PyVal) (tags : AttrSet) : Op
deriving DecidableEq, Repr

/-- Result of running an embedded Python function: the returned value or
the raised exception, together with the (mutated-in-place) attribute
dictionary and the telemetry operations emitted up to that point. -/
structure PRes (α : Type) where
  val : Except PyErr α
  attrs : AttrSet
  ops : List Op
deriving Repr, DecidableEq

/-- The Nuclio `Event` fields the embedded code reads. -/
structure EventV where
  method : String
  url : Option String
  path : Option String
  headers : Option (List (String × String))
  size : Option Int
  body : Option String
deriving DecidableEq, Repr

/-- Find the first occurrence of `pat` in `cs` and split around it. -/
def splitOnceStr (cs pat : List Char) : Option (List Char × List Char) :=
  match cs with
  | [] => none
  | c :: t =>
    if cs.take pat.length = pat then some ([], cs.drop pat.length)
    else (splitOnceStr t pat).map (fun pr => (c :: pr.1, pr.2))

/-- Model of the result of `urllib.parse.urlparse`, restricted to what
the embedded code reads.  The netloc is kept raw; `hostname` and `port`
are modelled as the `SplitResult` properties computed from it, as in
CPython. -/
structure ParsedUrl where
  scheme : String
  netloc : List Char
  path : String
  query : String
deriving DecidableEq, Repr

/-- Model of `SplitResult._hostinfo`: strip the userinfo (everything up
to the last `@`), then split host and port — for a bracketed IPv6 host
the hostname is the text inside the brackets and the port follows the
colon after the closing bracket; otherwise the host is the text before
the first colon.  An empty port string counts as no port. -/
def hostinfo (netloc : List Char) : List Char × Option (List Char) :=
  let hi := if netloc.contains '@' then
      (netloc.reverse.takeWhile (fun c => c != '@')).reverse
    else netloc
  if hi.contains '[' then
    let bracketed := (hi.dropWhile (fun c => c != '[')).drop 1
    let host := bracketed.takeWhile (fun c => c != ']')
    let rest := (bracketed.dropWhile (fun c => c != ']')).drop 1
    let port := (rest.dropWhile (fun c => c != ':')).drop 1
    (host, if port.isEmpty then none else some port)
  else
    let host := hi.takeWhile (fun c => c != ':')
    let port := (hi.dropWhile (fun c => c != ':')).drop 1
    (host, if port.isEmpty then none else some port)

/-- Model of the `SplitResult.hostname` property: the host part,
lower-cased; `None` when empty. -/
def ParsedUrl.hostname (p : ParsedUrl) : Option String :=
  let h := (hostinfo p.netloc).1
  if h.isEmpty then none else some (String.mk (h.map Char.toLower))

/-- Model of the `SplitResult.port` property: `None` when no port text
is present; otherwise the port text converted to an integer — raising
`ValueError` when it cannot be converted or falls outside 0..65535,
exactly as CPython's property does. -/
def ParsedUrl.port (p : ParsedUrl) : Except PyErr (Option Int) :=
  match (hostinfo p.netloc).2 with
  | none => .ok none
  | some cs =>
    match parsePyInt (String.mk cs) with
    | none => .error (.valueError "Port could not be cast to integer value")
    | some n =>
      if 0 ≤ n ∧ n ≤ 65535 then .ok (some n)
      else .error (.valueError "Port out of range 0-65535")

/-- Executable model of `urllib.parse.urlparse`: scheme before `"://"`,
netloc up to the first `/`, `?` or `#`, path up to `?` or `#`, query
between `?` and `#`.  As in CPython, a netloc with unbalanced IPv6
brackets raises `ValueError`; the port property raises separately when
it is read (see `ParsedUrl.port`). -/
def urlparse (u : String) : Except PyErr ParsedUrl :=
  match splitOnceStr u.data [':', '/', '/'] with
  | some (sch, r) =>
    let netloc := r.takeWhile (fun c => c != '/' && c != '?' && c != '#')
    if (netloc.contains '[' && !netloc.contains ']')
        || (netloc.contains ']' && !netloc.contains '[') then
      .error (.valueError "Invalid IPv6 URL")
    else
      let restPart := r.drop netloc.length
      let beforeFrag := restPart.takeWhile (fun c => c != '#')
      let path := beforeFrag.takeWhile (fun c => c != '?')
      let query := (beforeFrag.drop path.length).drop 1
      .ok { scheme := String.mk sch, netloc := netloc,
            path := String.mk path, query := String.mk query }
  | none =>
    let beforeFrag := u.data.takeWhile (fun c => c != '#')
    let path := beforeFrag.takeWhile (fun c => c != '?')
    let query := (beforeFrag.drop path.length).drop 1
    .ok { scheme := "", netloc := [],
          path := String.mk path, query := String.mk query }

/-- `ACTIVE_REQUEST_COUNTER_ATTRS` from the source. -/
def ACTIVE_REQUEST_COUNTER_ATTRS : List String :=
  ["http.request.method", "url.scheme", "server.address", "server.port"]

/-- `DURATION_ATTRS` from the source. -/
def DURATION_ATTRS : List String :=
  ["http.request.method", "url.scheme", "http.route",
   "server.address", "server.port", "http.response.status_code"]

/-- First stage of `HTTPProfileProcessor.process_request`'s attribute
building (source lines 387-403): request method, the URL-present /
URL-absent attribute block, and the route.  On the URL-present path,
`urlparse` (line 389) and the `parsed_url.port` property read (line
393) can raise `ValueError`, which nothing in `process_request`
catches; the attribute writes made before the raise persist. -/
def request_attrs_base (e : EventV) (a0 : AttrSet) : Except PyErr Unit × AttrSet :=
  let a := setAttr a0 "http.request.method" (.str e.method)
  if optStrTruthy e.url then
    let u := e.url.getD ""
    match urlparse u with
    | .error err => (.error err, a)
    | .ok p =>
      let a := setAttr a "url.path" (.str p.path)
      let a := setAttr a "url.scheme" (.str p.scheme)
      let a := setAttr a "server.address"
        (match p.hostname with | some h => .str h | none => .pyNone)
      match p.port with
      | .error err => (.error err, a)
      | .ok port? =>
        let a := if optIntTruthy port? then setAttr a "server.port" (.int (port?.getD 0)) else a
        let a := if p.query ≠ "" then setAttr a "url.query" (.str p.query) else a
        let a := setAttr a "url.full" (.str u)
        (.ok (), setAttr a "http.route" (.str (e.path.getD "")))
  else
    let a := setAttr a "url.path" (.str (e.path.getD ""))
    let a := setAttr a "url.scheme" (.str "http")
    let a := setAttr a "url.full" (.str "")
    (.ok (), setAttr a "http.route" (.str (e.path.getD "")))

/-- Second stage (source lines 404-407): one attribute per request
header, keyed by the request-header template plus the lower-cased
header name. -/
def request_attrs_headerAttrs (e : EventV) (a : AttrSet) : AttrSet :=
  if headersTruthy e.headers then
    (e.headers.getD []).foldl
      (fun acc kv => setAttr acc ("http.request.header." ++ pyLower kv.1) (.str kv.2)) a
  else a

/-- Third stage (source lines 408-413): request size and request body
attributes (body value only when content tracing is enabled). -/
def request_attrs_sizeBody (ctEnv : Option String) (e : EventV) (a : AttrSet) : AttrSet :=
  let a := match e.size with
    | some n => setAttr a "http.request.size" (.int n)
    | none => a
  if optStrTruthy e.body then
    let b := e.body.getD ""
    let a :=
      if is_content_tracing_enabled ctEnv then
        setAttr a "http.request.body.value" (.str b)
      else a
    setAttr a "http.request.body.size" (.int (b.length : Int))
  else a

/-- Fourth stage (source lines 414-437): attributes derived from
well-known headers — user agent, client / peer address, protocol
version and peer port.  The only fallible derivation, `int` of the
`X-Forwarded-Port` value, is wrapped in `try/except ValueError: pass`,
modelled by the `parsePyInt` match. -/
def request_attrs_headerDerived (e : EventV) (a : AttrSet) : AttrSet :=
  if headersTruthy e.headers then
    let hs := e.headers.getD []
    let ua := pyOrStr (hget hs "User-Agent") (hget hs "user-agent")
    let a := if optStrTruthy ua then setAttr a "user_agent.original" (.str (ua.getD "")) else a
    let ca := pyOrStr (hget hs "X-Forwarded-For") (hget hs "X-Real-IP")
    let a :=
      if optStrTruthy ca then
        let addr := pyStrip ((pySplit (ca.getD "") ',').headD "")
        let a := setAttr a "client.address" (.str addr)
        setAttr a "network.peer.address" (.str addr)
      else a
    let proto := hget hs "X-Forwarded-Proto"
    let a :=
      if optStrTruthy proto then
        setAttr a "network.protocol.version" (.str (proto.getD ""))
      else a
    let port := hget hs "X-Forwarded-Port"
    if optStrTruthy port then
      match parsePyInt (port.getD "") with
      | some n => setAttr a "network.peer.port" (.int n)
      | none => a
    else a
  else a

/-- Attribute-building part of `HTTPProfileProcessor.process_request`
(source lines 387-437), as the composition of its four stages in source
order.  Only the first stage can raise (uncaught `ValueError` from the
URL parse / port property); the later stages never do. -/
def request_attrs (ctEnv : Option String) (e : EventV) (a0 : AttrSet) :
    Except PyErr Unit × AttrSet :=
  match request_attrs_base e a0 with
  | (.error err, a) => (.error err, a)
  | (.ok _, a) =>
    (.ok (),
     request_attrs_headerDerived e
       (request_attrs_sizeBody ctEnv e (request_attrs_headerAttrs e a)))

/-- `HTTPProfileProcessor.process_request` from the source: build the
request attributes, then fetch the active-request counter (one-argument
`getattr`, so a missing instrument attribute raises) and, when it is
truthy, add `+1` tagged with the filtered attribute projection. -/
def HTTPProfileProcessor.process_request (ctEnv : Option String) (e : EventV)
    (ctx : Ctx) (a0 : AttrSet) : PRes Unit :=
  match request_attrs ctEnv e a0 with
  | (.error err, a) => ⟨.error err, a, []⟩
  | (.ok _, a) =>
    match getattrE ctx "meter_active_requests_counter" with
    | .error err => ⟨.error err, a, []⟩
    | .ok c =>
      if ctxTruthy c then
        ⟨.ok (), a, [.counterAdd c 1 (_filter_attrs a ACTIVE_REQUEST_COUNTER_ATTRS)]⟩
      else ⟨.ok (), a, []⟩

/-- Attribute-building part of `HTTPProfileProcessor.process_response`
(source lines 459-475).  A structured `Response` populates status code,
per-header attributes, size and body attributes; any other value gets
status code 200, the raw value as body-value when content tracing is
enabled, and `len(response)` as body size — `len` of a length-less raw
value raises `TypeError`.  The attribute dictionary reflects the writes
made before a raise. -/
def response_attrs (r : PyVal) (ctx : Ctx) (a0 : AttrSet) :
    Except PyErr Unit × AttrSet :=
  match r with
  | .resp status headers size body =>
    let a := setAttr a0 "http.response.status_code" (.int status)
    let a :=
      if headersTruthy headers then
        (headers.getD []).foldl
          (fun acc kv => setAttr acc ("http.response.header." ++ pyLower kv.1) (.str kv.2)) a
      else a
    let a := match size with
      | some n => setAttr a "http.response.size" (.int n)
      | none => a
    if optStrTruthy body then
      let b := body.getD ""
      match getattrE ctx "content_tracing_enabled" with
      | .error err => (.error err, a)
      | .ok f =>
        let a := if ctxTruthy f then setAttr a "http.response.body.value" (.str b) else a
        (.ok (), setAttr a "http.response.body.size" (.int (b.length : Int)))
    else (.ok (), a)
  | raw =>
    let a := setAttr a0 "http.response.status_code" (.int 200)
    match getattrE ctx "content_tracing_enabled" with
    | .error err => (.error err, a)
    | .ok f =>
      let a := if ctxTruthy f then setAttr a "http.response.body.value" raw else a
      match pyLen raw with
      | .error err => (.error err, a)
      | .ok n => (.ok (), setAttr a "http.response.body.size" (.int n))

/-- `HTTPProfileProcessor.process_response` from the source: build the
response attributes, then add `-1` on the active-request counter with
the filtered projection, then record the duration and body-size
histograms (each instrument fetched by one-argument `getattr`). -/
def HTTPProfileProcessor.process_response (r : PyVal) (t0 t1 : Int)
    (ctx : Ctx) (a0 : AttrSet) : PRes Unit :=
  match response_attrs r ctx a0 with
  | (.error err, a) => ⟨.error err, a, []⟩
  | (.ok _, a) =>
    match getattrE ctx "meter_active_requests_counter" with
    | .error err => ⟨.error err, a, []⟩
    | .ok c =>
      let ops1 :=
        if ctxTruthy c then
          [Op.counterAdd c (-1) (_filter_attrs a ACTIVE_REQUEST_COUNTER_ATTRS)]
        else []
      match getattrE ctx "meter_duration_histogram" with
      | .error err => ⟨.error err, a, ops1⟩
      | .ok dh =>
        match getattrE ctx "meter_request_body_size_histogram" with
        | .error err => ⟨.error err, a, ops1⟩
        | .ok qh =>
          match getattrE ctx "meter_response_body_size_histogram" with
          | .error err => ⟨.error err, a, ops1⟩
          | .ok sh =>
            let ops2 := ops1 ++
              (if ctxTruthy dh then
                [Op.histRecord dh (.int (t1 - t0)) (_filter_attrs a DURATION_ATTRS)]
              else [])
            let ops3 := ops2 ++
              (if ctxTruthy qh && (getAttr? a "http.request.body.size").isSome then
                [Op.histRecord qh ((getAttr? a "http.request.body.size").getD .pyNone)
                  (_filter_attrs a DURATION_ATTRS)]
              else [])
            let ops4 := ops3 ++
              (if ctxTruthy sh && (getAttr? a "http.response.body.size").isSome then
                [Op.histRecord sh ((getAttr? a "http.response.body.size").getD .pyNone)
                  (_filter_attrs a DURATION_ATTRS)]
              else [])
            ⟨.ok (), a, ops4⟩

/-- Loop body of module-level `_process_request`: run each processor's
`process_request` in registration order, threading the shared attribute
dictionary and stopping at the first raised exception. -/
def runProcessorsRequest (ctEnv : Option String) (ps : List ProfileProc)
    (e : EventV) (ctx : Ctx) (a : AttrSet) (ops : List Op) : PRes Unit :=
  match ps with
  | [] => ⟨.ok (), a, ops⟩
  | .http :: rest =>
    let r := HTTPProfileProcessor.process_request ctEnv e ctx a
    match r.val with
    | .error err => ⟨.error err, r.attrs, ops ++ r.ops⟩
    | .ok _ => runProcessorsRequest ctEnv rest e ctx r.attrs (ops ++ r.ops)

/-- Module-level `_process_request` from the source: fetch the processor
list (`getattr` with default `[]`) and run each processor. -/
def _process_request (ctEnv : Option String) (e : EventV) (ctx : Ctx)
    (a : AttrSet) : PRes Unit :=
  match getattrD ctx "profile_processors" (.processors []) with
  | .processors ps => runProcessorsRequest ctEnv ps e ctx a []
  | _ => ⟨.error (.typeError "profile_processors is not iterable"), a, []⟩

/-- Loop body of module-level `_process_response`. -/
def runProcessorsResponse (ps : List ProfileProc) (r : PyVal) (t0 t1 : Int)
    (ctx : Ctx) (a : AttrSet) (ops : List Op) : PRes Unit :=
  match ps with
  | [] => ⟨.ok (), a, ops⟩
  | .http :: rest =>
    let pr := HTTPProfileProcessor.process_response r t0 t1 ctx a
    match pr.val with
    | .error err => ⟨.error err, pr.attrs, ops ++ pr.ops⟩
    | .ok _ => runProcessorsResponse rest r t0 t1 ctx pr.attrs (ops ++ pr.ops)

/-- Module-level `_process_response` from the source. -/
def _process_response (r : PyVal) (t0 t1 : Int) (ctx : Ctx) (a : AttrSet) : PRes Unit :=
  match getattrD ctx "profile_processors" (.processors []) with
  | .processors ps => runProcessorsResponse ps r t0 t1 ctx a []
  | _ => ⟨.error (.typeError "profile_processors is not iterable"), a, []⟩

/-- The `res` local variable of `_execute_measured`: the handler's
return value on success, a synthetic `Response(status_code=500)` (all
other fields at their `nuclio_sdk.Response` defaults) when the handler
raised and the `except` clause replaced it. -/
def measuredResult (handler : Except PyErr PyVal) : PyVal :=
  match handler with
  | .ok v => v
  | .error _ => .resp 500 none none none

/-- `_execute_measured` from the source.  The user handler call is
modelled by its outcome `handler : Except PyErr PyVal`; `t0`/`t1` are
the two `time.time()` readings.  With no meter (attribute present and
`None`) the handler result is passed through unchanged.  With a meter,
a raising handler is swallowed and replaced by a synthetic
`Response(status_code=500)` for response processing, and — the function
body ending after its `finally` without a `return` — the function
returns `None` rather than the handler's result. -/
def _execute_measured (ctx : Ctx) (a : AttrSet)
    (handler : Except PyErr PyVal) (t0 t1 : Int) : PRes PyVal :=
  match getattrE ctx "meter" with
  | .error err => ⟨.error err, a, []⟩
  | .ok m =>
    if m = .pyNone then
      match handler with
      | .ok v => ⟨.ok v, a, []⟩
      | .error err => ⟨.error err, a, []⟩
    else
      let pr := _process_response (measuredResult handler) t0 t1 ctx a
      match pr.val with
      | .error err => ⟨.error err, pr.attrs, pr.ops⟩
      | .ok _ => ⟨.ok .pyNone, pr.attrs, pr.ops⟩

/-- `execute_callable` from the source.  `event` models the optional
`event` keyword argument; the tracer is read by one-argument `getattr`
(a context without the attribute raises `AttributeError`).  With a
non-None tracer a span named "handler" is opened; on an exception from
the body the current span gets `set_status(error)` and
`record_exception` and the exception is re-raised; the `finally` block
commits the attribute dictionary onto the span before the span closes. -/
def execute_callable (ctEnv : Option String) (ctx : Ctx) (event : Option EventV)
    (handler : Except PyErr PyVal) (t0 t1 : Int) : PRes PyVal :=
  match getattrE ctx "tracer" with
  | .error err => ⟨.error err, [], []⟩
  | .ok tr =>
    if tr = .pyNone then
      _execute_measured ctx [] handler t0 t1
    else
      let inner : PRes PyVal :=
        match event with
        | some e =>
          let pr := _process_request ctEnv e ctx []
          match pr.val with
          | .error err => ⟨.error err, pr.attrs, pr.ops⟩
          | .ok _ =>
            let pm := _execute_measured ctx pr.attrs handler t0 t1
            ⟨pm.val, pm.attrs, pr.ops ++ pm.ops⟩
        | none => _execute_measured ctx [] handler t0 t1
      let tailOps : List Op :=
        match inner.val with
        | .error err => [.setStatusError, .recordException err, .setAttributes inner.attrs, .spanEnd]
        | .ok _ => [.setAttributes inner.attrs, .spanEnd]
      ⟨inner.val, inner.attrs, Op.spanStart "handler" :: (inner.ops ++ tailOps)⟩

/-- `HTTPProfileProcessor.init_profile` from the source: store the
content-tracing flag, then fetch the meter by one-argument `getattr`
(missing attribute raises); with a meter, create the four instruments
and store their handles in the context. -/
def HTTPProfileProcessor.init_profile (ctEnv : Option String) (ctx : Ctx) :
    Except PyErr Ctx :=
  let ctx := setattrCtx ctx "content_tracing_enabled" (.bool (is_content_tracing_enabled ctEnv))
  match getattrE ctx "meter" with
  | .error err => .error err
  | .ok m =>
    if m = .pyNone then .ok ctx
    else
      let ctx := setattrCtx ctx "meter_duration_histogram" (.handle "http.server.request.duration")
      let ctx := setattrCtx ctx "meter_active_requests_counter" (.handle "http.server.active_requests")
      let ctx := setattrCtx ctx "meter_request_body_size_histogram" (.handle "http.server.request.body.size")
      .ok (setattrCtx ctx "meter_response_body_size_histogram" (.handle "http.server.response.body.size"))

/-- Profile loop of `initialize_opentelemetry`: construct and initialize
a processor for each recognized profile name ("http" is the only one);
unrecognized names are skipped. -/
def init_processors (ctEnv : Option String) (profiles : List String)
    (ctx : Ctx) (acc : List ProfileProc) : Except PyErr (Ctx × List ProfileProc) :=
  match profiles with
  | [] => .ok (ctx, acc)
  | p :: rest =>
    if p = "http" then
      match HTTPProfileProcessor.init_profile ctEnv ctx with
      | .error err => .error err
      | .ok ctx2 => init_processors ctEnv rest ctx2 (acc ++ [.http])
    else init_processors ctEnv rest ctx acc

/-- `initialize_opentelemetry` from the source (backend configurator and
log line elided): `tracer`/`meter` are the handles returned by
`trace.get_tracer` / `metrics.get_meter` (`none` models a `None`
return); each is stored on the context only when it is non-None and the
corresponding enablement flag holds; then the enabled profiles are
initialized and the processor list is stored. -/
def initialize_opentelemetry (tracer meter : Option String)
    (profilesEnv ctEnv : Option String) (ctx0 : Ctx) : Except PyErr Ctx :=
  let ctx :=
    match tracer with
    | some t => if is_tracing_enabled then setattrCtx ctx0 "tracer" (.handle t) else ctx0
    | none => ctx0
  let ctx :=
    match meter with
    | some m => if is_metrics_enabled then setattrCtx ctx "meter" (.handle m) else ctx
    | none => ctx
  match init_processors ctEnv (get_profiles profilesEnv) ctx [] with
  | .error err => .error err
  | .ok (ctx2, ps) => .ok (setattrCtx ctx2 "profile_processors" (.processors ps))

/-- Recognizer for counter `add` operations. -/
def isCounterAdd : Op → Bool
  | .counterAdd _ _ _ => true
  | _ => false

/-- Recognizer for `span.set_status(error)` operations. -/
def isSetStatusErr : Op → Bool
  | .setStatusError => true
  | _ => false

/-- Recognizer for `span.record_exception` operations. -/
def isRecordExc : Op → Bool
  | .recordException _ => true
  | _ => false

/-- Recognizer for a structured `nuclio_sdk.Response` value. -/
def isResp : PyVal → Bool
  | .resp _ _ _ _ => true
  | _ => false

/-- A context as `initialize_opentelemetry` actually builds it when the
backend supplies both a tracer and a meter, with the default profile
list. -/
def ctxInstrumented : Ctx :=
  (initialize_opentelemetry (some "tracer") (some "meter") none none []).toOption.getD []

/-- A minimal event: GET with only a path. -/
def evMin : EventV :=
  { method := "GET", url := none, path := some "/test",
    headers := none, size := none, body := none }

/-- Overwriting one dictionary key only changes the lookup of that key. -/
theorem getAttr?_setAttr (m : AttrSet) (k k' : String) (v : PyVal) :
    getAttr? (setAttr m k v) k' = if k' = k then some v else getAttr? m k' := by
  induction m with
  | nil =>
    by_cases h : k' = k
    · subst h; simp [setAttr, getAttr?]
    · simp [setAttr, getAttr?, h, Ne.symm h]
  | cons kv t ih =>
    by_cases h1 : kv.1 = k
    · by_cases h2 : k' = k
      · subst h2; simp [setAttr, getAttr?, h1]
      · have h3 : ¬ (kv.1 = k') := fun he => h2 (h1 ▸ he.symm ▸ rfl)
        simp [setAttr, getAttr?, h1, h2, h3, Ne.symm h2]
    · by_cases h2 : kv.1 = k'
      · have h3 : ¬ (k' = k) := fun he => h1 (he ▸ h2)
        simp [setAttr, getAttr?, h1, h2, h3]
      · by_cases h3 : k' = k
        · subst h3; simp [setAttr, getAttr?, h1, h2, ih]
        · simp [setAttr, getAttr?, h1, h2, h3, ih]

/-- Overwriting one context attribute only changes the lookup of that
attribute. -/
theorem getattrE_setattrCtx (ctx : Ctx) (k k' : String) (v : CtxVal) :
    getattrE (setattrCtx ctx k v) k' = if k' = k then .ok v else getattrE ctx k' := by
  induction ctx with
  | nil =>
    by_cases h : k' = k
    · subst h; simp [setattrCtx, getattrE]
    · simp [setattrCtx, getattrE, h, Ne.symm h]
  | cons kv t ih =>
    by_cases h1 : kv.1 = k
    · by_cases h2 : k' = k
      · subst h2; simp [setattrCtx, getattrE, h1]
      · have h3 : ¬ (kv.1 = k') := fun he => h2 (h1 ▸ he.symm ▸ rfl)
        simp [setattrCtx, getattrE, h1, h2, h3, Ne.symm h2]
    · by_cases h2 : kv.1 = k'
      · have h3 : ¬ (k' = k) := fun he => h1 (he ▸ h2)
        simp [setattrCtx, getattrE, h1, h2, h3]
      · by_cases h3 : k' = k
        · subst h3; simp [setattrCtx, getattrE, h1, h2, ih]
        · simp [setattrCtx, getattrE, h1, h2, h3, ih]

/-- Writing a key that is outside the projection list leaves the
filtered projection unchanged. -/
theorem filter_setAttr_not_mem (m : AttrSet) (k : String) (v : PyVal)
    (names : List String) (hk : names.contains k = false) :
    _filter_attrs (setAttr m k v) names = _filter_attrs m names := by
  have hk2 : k ∉ names := by simpa using hk
  induction m with
  | nil => simp [setAttr, _filter_attrs, hk2]
  | cons kv t ih =>
    by_cases h1 : kv.1 = k
    · simp [setAttr, _filter_attrs, h1, hk2]
    · by_cases h2 : names.contains kv.1 = true <;>
        simp [setAttr, _filter_attrs, h1, h2, ih]

/-- A string extending a prefix longer than `t` cannot equal `t`. -/
theorem append_ne_of_shorter (pre s t : String) (h : t.length < pre.length) :
    pre ++ s ≠ t := by
  intro he
  have hl := congrArg String.length he
  rw [String.length_append] at hl
  omega

/-- Lookup stability through the per-header attribute fold. -/
theorem getAttr?_headerFold (pre : String) (hs : List (String × String))
    (a : AttrSet) (k : String) (hk : ∀ s, pre ++ s ≠ k) :
    getAttr?
      (hs.foldl (fun acc kv => setAttr acc (pre ++ pyLower kv.1) (.str kv.2)) a) k
      = getAttr? a k := by
  induction hs generalizing a with
  | nil => rfl
  | cons kv t ih =>
    simp only [List.foldl_cons]
    rw [ih, getAttr?_setAttr]
    have h2 : ¬ (k = pre ++ pyLower kv.1) := fun he => hk (pyLower kv.1) he.symm
    simp [h2]

/-- Projection stability through the per-header attribute fold. -/
theorem filter_headerFold (pre : String) (hs : List (String × String))
    (a : AttrSet) (names : List String)
    (hn : ∀ s, names.contains (pre ++ s) = false) :
    _filter_attrs
      (hs.foldl (fun acc kv => setAttr acc (pre ++ pyLower kv.1) (.str kv.2)) a) names
      = _filter_attrs a names := by
  induction hs generalizing a with
  | nil => rfl
  | cons kv t ih =>
    simp only [List.foldl_cons]
    rw [ih, filter_setAttr_not_mem _ _ _ _ (hn (pyLower kv.1))]

/-- No response-header attribute key belongs to the active-request
counter tag list. -/
theorem respHeader_not_active (s : String) :
    ACTIVE_REQUEST_COUNTER_ATTRS.contains ("http.response.header." ++ s) = false := by
  have h : ("http.response.header." ++ s) ∉ ACTIVE_REQUEST_COUNTER_ATTRS := by
    intro hm
    simp [ACTIVE_REQUEST_COUNTER_ATTRS] at hm
    rcases hm with h | h | h | h <;> exact append_ne_of_shorter _ _ _ (by decide) h
  simpa using h

/-- The response-side attribute writes (status code, response headers,
response size, response body value and size) never touch the four
active-request counter tag keys, so the counter tag projection of the
attribute dictionary is unchanged by `process_response`'s
attribute-building phase, whether or not it raises. -/
theorem response_attrs_filter_active (r : PyVal) (ctx : Ctx) (a : AttrSet) :
    _filter_attrs (response_attrs r ctx a).2 ACTIVE_REQUEST_COUNTER_ATTRS
      = _filter_attrs a ACTIVE_REQUEST_COUNTER_ATTRS := by
  have hs : ∀ m v, _filter_attrs (setAttr m "http.response.status_code" v)
      ACTIVE_REQUEST_COUNTER_ATTRS = _filter_attrs m ACTIVE_REQUEST_COUNTER_ATTRS :=
    fun m v => filter_setAttr_not_mem m _ v _ (by decide)
  have hsz : ∀ m v, _filter_attrs (setAttr m "http.response.size" v)
      ACTIVE_REQUEST_COUNTER_ATTRS = _filter_attrs m ACTIVE_REQUEST_COUNTER_ATTRS :=
    fun m v => filter_setAttr_not_mem m _ v _ (by decide)
  have hbv : ∀ m v, _filter_attrs (setAttr m "http.response.body.value" v)
      ACTIVE_REQUEST_COUNTER_ATTRS = _filter_attrs m ACTIVE_REQUEST_COUNTER_ATTRS :=
    fun m v => filter_setAttr_not_mem m _ v _ (by decide)
  have hbs : ∀ m v, _filter_attrs (setAttr m "http.response.body.size" v)
      ACTIVE_REQUEST_COUNTER_ATTRS = _filter_attrs m ACTIVE_REQUEST_COUNTER_ATTRS :=
    fun m v => filter_setAttr_not_mem m _ v _ (by decide)
  have hfold : ∀ (hs : List (String × String)) m,
      _filter_attrs
        (hs.foldl (fun acc kv =>
          setAttr acc ("http.response.header." ++ pyLower kv.1) (.str kv.2)) m)
        ACTIVE_REQUEST_COUNTER_ATTRS = _filter_attrs m ACTIVE_REQUEST_COUNTER_ATTRS :=
    fun hs m => filter_headerFold _ hs m _ respHeader_not_active
  cases r <;> simp only [response_attrs] <;> (repeat' split) <;>
    simp [hs, hsz, hbv, hbs, hfold]

/-- With the request-side attribute building succeeding and the
active-request counter present and truthy,
`HTTPProfileProcessor.process_request` succeeds and emits exactly the
single `+1` add, tagged with the counter projection of the attributes
it just built. -/
theorem process_request_counter_spec (ctEnv : Option String) (e : EventV)
    (ctx : Ctx) (a0 : AttrSet) (c : CtxVal)
    (hreq : (request_attrs ctEnv e a0).1 = .ok ())
    (hc : getattrE ctx "meter_active_requests_counter" = .ok c)
    (ht : ctxTruthy c = true) :
    HTTPProfileProcessor.process_request ctEnv e ctx a0 =
      ⟨.ok (), (request_attrs ctEnv e a0).2,
       [.counterAdd c 1
         (_filter_attrs (request_attrs ctEnv e a0).2 ACTIVE_REQUEST_COUNTER_ATTRS)]⟩ := by
  simp only [HTTPProfileProcessor.process_request]
  split
  · rename_i err a heq
    rw [heq] at hreq
    simp at hreq
  · rename_i u a heq
    rw [heq, hc]
    simp [ht]

/-- Every telemetry operation of `HTTPProfileProcessor.process_request`
is a counter add (its only instrument interaction is the `+1`). -/
theorem process_request_ops_counterOnly (ctEnv : Option String) (e : EventV)
    (ctx : Ctx) (a0 : AttrSet) :
    ∀ op ∈ (HTTPProfileProcessor.process_request ctEnv e ctx a0).ops,
      isCounterAdd op = true := by
  simp only [HTTPProfileProcessor.process_request]
  repeat' split
  all_goals simp [isCounterAdd]

/-- Ops purity extends through the processor-request loop. -/
theorem runProcessorsRequest_ops_counterOnly (ctEnv : Option String)
    (ps : List ProfileProc) (e : EventV) (ctx : Ctx) (a : AttrSet) (ops : List Op)
    (h : ∀ op ∈ ops, isCounterAdd op = true) :
    ∀ op ∈ (runProcessorsRequest ctEnv ps e ctx a ops).ops, isCounterAdd op = true := by
  induction ps generalizing a ops with
  | nil => simpa [runProcessorsRequest] using h
  | cons p rest ih =>
    cases p
    simp only [runProcessorsRequest]
    have hpure := process_request_ops_counterOnly ctEnv e ctx a
    split
    · rename_i heq
      intro op hop
      simp only [PRes.ops] at hop
      rcases List.mem_append.mp hop with h1 | h2
      · exact h op h1
      · exact hpure op h2
    · exact ih _ _ (fun op hop =>
        (List.mem_append.mp hop).elim (h op) (hpure op))

/-- Every telemetry operation emitted by module-level `_process_request`
is a counter add — in particular it never touches the span status. -/
theorem _process_request_ops_counterOnly (ctEnv : Option String) (e : EventV)
    (ctx : Ctx) (a : AttrSet) :
    ∀ op ∈ (_process_request ctEnv e ctx a).ops, isCounterAdd op = true := by
  simp only [_process_request]
  split
  · exact runProcessorsRequest_ops_counterOnly _ _ _ _ _ _ (by simp)
  · simp

/-- With request-side attribute building succeeding, the HTTP processor
registered and the counter present and truthy, module-level
`_process_request` succeeds, leaves the request attributes, and emits
exactly the single `+1` add. -/
theorem _process_request_spec (ctEnv : Option String) (e : EventV) (ctx : Ctx)
    (c : CtxVal)
    (hreq : (request_attrs ctEnv e []).1 = .ok ())
    (hp : getattrD ctx "profile_processors" (.processors []) = .processors [.http])
    (hc : getattrE ctx "meter_active_requests_counter" = .ok c)
    (ht : ctxTruthy c = true) :
    _process_request ctEnv e ctx [] =
      ⟨.ok (), (request_attrs ctEnv e []).2,
       [.counterAdd c 1
         (_filter_attrs (request_attrs ctEnv e []).2 ACTIVE_REQUEST_COUNTER_ATTRS)]⟩ := by
  simp [_process_request, hp, runProcessorsRequest,
    process_request_counter_spec ctEnv e ctx [] c hreq hc ht]

/-- When request-side attribute building raises, `_process_request`
propagates the exception before any counter operation is emitted. -/
theorem _process_request_error_spec (ctEnv : Option String) (e : EventV)
    (ctx : Ctx) (err : PyErr)
    (hp : getattrD ctx "profile_processors" (.processors []) = .processors [.http])
    (hreq : (request_attrs ctEnv e []).1 = .error err) :
    _process_request ctEnv e ctx [] =
      ⟨.error err, (request_attrs ctEnv e []).2, []⟩ := by
  have hrun : HTTPProfileProcessor.process_request ctEnv e ctx []
      = ⟨.error err, (request_attrs ctEnv e []).2, []⟩ := by
    simp only [HTTPProfileProcessor.process_request]
    split
    · rename_i err2 a heq
      rw [heq] at hreq
      rw [heq]
      simp at hreq ⊢
      exact hreq
    · rename_i u a heq
      rw [heq] at hreq
      simp at hreq
  simp [_process_request, hp, runProcessorsRequest, hrun]

/-- With the counter present and truthy,
`HTTPProfileProcessor.process_response` emits exactly one counter add,
the `-1` tagged with the counter projection of the response-processed
attributes, whatever the histogram instruments look like; its attribute
dictionary is the one `response_attrs` built. -/
theorem process_response_counter_spec (r : PyVal) (t0 t1 : Int) (ctx : Ctx)
    (a0 : AttrSet) (c : CtxVal)
    (hc : getattrE ctx "meter_active_requests_counter" = .ok c)
    (ht : ctxTruthy c = true)
    (hok : (response_attrs r ctx a0).1 = .ok ()) :
    (HTTPProfileProcessor.process_response r t0 t1 ctx a0).ops.filter isCounterAdd
      = [.counterAdd c (-1)
          (_filter_attrs (response_attrs r ctx a0).2 ACTIVE_REQUEST_COUNTER_ATTRS)]
    ∧ (HTTPProfileProcessor.process_response r t0 t1 ctx a0).attrs
        = (response_attrs r ctx a0).2 := by
  simp only [HTTPProfileProcessor.process_response]
  split
  · rename_i heq
    rw [heq] at hok
    simp at hok
  · rename_i u a heq
    rw [heq, hc]
    simp only [ht]
    repeat' split
    all_goals simp_all [isCounterAdd, List.filter_append]

/-- The single-counter-add characterization extends to module-level
`_process_response` with the HTTP processor registered. -/
theorem _process_response_counter_spec (r : PyVal) (t0 t1 : Int) (ctx : Ctx)
    (a0 : AttrSet) (c : CtxVal)
    (hp : getattrD ctx "profile_processors" (.processors []) = .processors [.http])
    (hc : getattrE ctx "meter_active_requests_counter" = .ok c)
    (ht : ctxTruthy c = true)
    (hok : (response_attrs r ctx a0).1 = .ok ()) :
    (_process_response r t0 t1 ctx a0).ops.filter isCounterAdd
      = [.counterAdd c (-1)
          (_filter_attrs (response_attrs r ctx a0).2 ACTIVE_REQUEST_COUNTER_ATTRS)]
    ∧ (_process_response r t0 t1 ctx a0).attrs = (response_attrs r ctx a0).2 := by
  have hone := process_response_counter_spec r t0 t1 ctx a0 c hc ht hok
  simp only [_process_response, hp, runProcessorsResponse]
  split
  · exact ⟨by simpa using hone.1, hone.2⟩
  · exact ⟨by simpa using hone.1, hone.2⟩

/-- The source's filtering loop is `List.filter` on the key predicate. -/
theorem _filter_attrs_eq_filter (attrs : AttrSet) (names : List String) :
    _filter_attrs attrs names = attrs.filter (fun kv => names.contains kv.1) := by
  induction attrs with
  | nil => rfl
  | cons kv t ih =>
    by_cases h : names.contains kv.1 = true <;> simp [_filter_attrs, h, ih, List.filter_cons]

/-- C7: `get_profiles()` returns `["http"]` when the enabled-profiles
environment variable is unset or set to the empty string, and the
comma-split list of names otherwise; in particular `"http,custom"`
yields `["http", "custom"]`. -/
theorem c7_get_profiles :
    get_profiles none = ["http"]
    ∧ get_profiles (some "") = ["http"]
    ∧ get_profiles (some "http,custom") = ["http", "custom"]
    ∧ ∀ s : String, s ≠ "" → get_profiles (some s) = pySplit s ',' := by
  refine ⟨by decide, by decide, by decide, ?_⟩
  intro s hs
  simp [get_profiles, getenvD, hs]

/-- Witness for C7 at the concrete set value `"a,b"`. -/
theorem c7_witness : get_profiles (some "a,b") = ["a", "b"] := by
  rw [c7_get_profiles.2.2.2 "a,b" (by decide)]
  decide

/-- C9: `_filter_attrs` returns exactly the sub-mapping of entries whose
key is in the name list — every kept entry comes from the input with its
original value and a listed key, names absent from the input are simply
omitted — and `filter({a:1,b:2,c:3}, [a,c]) = {a:1,c:3}`. -/
theorem c9_filter_attrs_spec (attrs : AttrSet) (names : List String) :
    (∀ k v, (k, v) ∈ _filter_attrs attrs names
        ↔ ((k, v) ∈ attrs ∧ names.contains k = true))
    ∧ _filter_attrs [("a", .int 1), ("b", .int 2), ("c", .int 3)] ["a", "c"]
        = [("a", .int 1), ("c", .int 3)] := by
  refine ⟨?_, by decide⟩
  intro k v
  rw [_filter_attrs_eq_filter]
  simp [List.mem_filter]

/-- C3 (counterexample): a context with neither a tracer nor a meter
attribute — which is exactly what the Initializer leaves behind when a
handle is `None`, since it only calls `setattr` for non-None handles —
makes `execute_callable` raise `AttributeError` on its one-argument
`getattr(ctx, "tracer")` instead of passing the handler result through. -/
theorem c3_counterexample :
    execute_callable none [] none (.ok (.int 7)) 0 0
      = ⟨.error (.attributeError "tracer"), [], []⟩ := by decide

/-- C3 (amended): the exact pass-through fast path holds when the tracer
and meter attributes are present with value `None`: `execute_callable`
returns exactly the handler outcome (same value, same failure) with an
empty attribute dictionary and zero span or metric operations.  When the
attributes are absent instead, the lookup itself raises (see the
counterexample). -/
theorem c3_passthrough (ctEnv : Option String) (ctx : Ctx) (event : Option EventV)
    (handler : Except PyErr PyVal) (t0 t1 : Int)
    (htr : getattrE ctx "tracer" = .ok .pyNone)
    (hm : getattrE ctx "meter" = .ok .pyNone) :
    execute_callable ctEnv ctx event handler t0 t1 = ⟨handler, [], []⟩ := by
  simp only [execute_callable, htr, _execute_measured, hm]
  cases handler <;> simp

/-- Witness for C3 on a concrete two-attribute context. -/
theorem c3_witness :
    execute_callable none [("tracer", CtxVal.pyNone), ("meter", CtxVal.pyNone)] none
      (.ok (.str "v")) 0 0 = ⟨.ok (.str "v"), [], []⟩ :=
  c3_passthrough none [("tracer", CtxVal.pyNone), ("meter", CtxVal.pyNone)] none
    (.ok (.str "v")) 0 0 (by decide) (by decide)

/-- C6 (counterexample): with content tracing disabled (the flag stored
by the initializer is `False`), a raw non-Response value still gets the
body-size attribute set — refuting "neither body attribute is set when
content-tracing is disabled". -/
theorem c6_counterexample :
    getattrE ctxInstrumented "content_tracing_enabled" = .ok (.bool false)
    ∧ getAttr? (response_attrs (.str "x") ctxInstrumented []).2
        "http.response.body.size" = some (.int 1) := by decide

/-- C6 (amended): for a non-Response value with a length,
`process_response`'s attribute phase sets the status code to 200, sets
the body-value attribute to the raw value exactly when content tracing
is enabled, and always sets the body-size attribute to the value's
length. -/
theorem c6_raw_response (r : PyVal) (ctx : Ctx) (f : Bool) (n : Int)
    (hraw : isResp r = false)
    (hf : getattrE ctx "content_tracing_enabled" = .ok (.bool f))
    (hlen : pyLen r = .ok n) :
    (response_attrs r ctx []).1 = .ok ()
    ∧ getAttr? (response_attrs r ctx []).2 "http.response.status_code"
        = some (.int 200)
    ∧ getAttr? (response_attrs r ctx []).2 "http.response.body.value"
        = (if f then some r else none)
    ∧ getAttr? (response_attrs r ctx []).2 "http.response.body.size"
        = some (.int n) := by
  cases r with
  | str s =>
    have hn : (s.length : Int) = n := by simpa [pyLen] using hlen
    cases f <;>
      simp [response_attrs, hf, ctxTruthy, pyLen, setAttr, getAttr?, hn]
  | pyNone => simp [pyLen] at hlen
  | int m => simp [pyLen] at hlen
  | resp a b c d => simp [isResp] at hraw

/-- Witness for C6 with content tracing enabled and the raw value "ok". -/
theorem c6_witness :
    (response_attrs (.str "ok") [("content_tracing_enabled", CtxVal.bool true)] []).1
        = .ok ()
    ∧ getAttr?
        (response_attrs (.str "ok") [("content_tracing_enabled", CtxVal.bool true)] []).2
        "http.response.status_code" = some (.int 200)
    ∧ getAttr?
        (response_attrs (.str "ok") [("content_tracing_enabled", CtxVal.bool true)] []).2
        "http.response.body.value" = (if true then some (PyVal.str "ok") else none)
    ∧ getAttr?
        (response_attrs (.str "ok") [("content_tracing_enabled", CtxVal.bool true)] []).2
        "http.response.body.size" = some (.int 2) :=
  c6_raw_response (.str "ok") [("content_tracing_enabled", CtxVal.bool true)] true 2
    (by decide) (by decide) (by decide)

/-- `init_profile` with a non-None meter succeeds and does not disturb
the tracer and meter attributes of the context. -/
theorem init_profile_preserves (cEnv : Option String) (ctx : Ctx) (m : String)
    (hm : getattrE ctx "meter" = .ok (.handle m)) :
    ∃ ctx2, HTTPProfileProcessor.init_profile cEnv ctx = .ok ctx2
      ∧ getattrE ctx2 "tracer" = getattrE ctx "tracer"
      ∧ getattrE ctx2 "meter" = .ok (.handle m) := by
  have hm1 : getattrE (setattrCtx ctx "content_tracing_enabled"
      (.bool (is_content_tracing_enabled cEnv))) "meter" = .ok (.handle m) := by
    simp [getattrE_setattrCtx, hm]
  simp only [HTTPProfileProcessor.init_profile, hm1]
  rw [if_neg (by simp)]
  refine ⟨_, rfl, ?_, ?_⟩ <;> simp [getattrE_setattrCtx, hm]

/-- The profile-initialization loop succeeds with a non-None meter and
preserves the tracer and meter attributes. -/
theorem init_processors_preserves (cEnv : Option String) (profiles : List String)
    (ctx : Ctx) (acc : List ProfileProc) (v : Except PyErr CtxVal) (m : String)
    (htr : getattrE ctx "tracer" = v)
    (hm : getattrE ctx "meter" = .ok (.handle m)) :
    ∃ ctx2 ps, init_processors cEnv profiles ctx acc = .ok (ctx2, ps)
      ∧ getattrE ctx2 "tracer" = v
      ∧ getattrE ctx2 "meter" = .ok (.handle m) := by
  induction profiles generalizing ctx acc with
  | nil => exact ⟨ctx, acc, by simp [init_processors], htr, hm⟩
  | cons p rest ih =>
    by_cases hp : p = "http"
    · obtain ⟨ctx1, h1, htr1, hm1⟩ := init_profile_preserves cEnv ctx m hm
      obtain ⟨ctx2, ps, h2, a, b⟩ := ih ctx1 (acc ++ [.http]) (htr1.trans htr) hm1
      exact ⟨ctx2, ps, by simp [init_processors, hp, h1, h2], a, b⟩
    · simpa [init_processors, hp] using ih ctx acc htr hm

/-- C10: `is_tracing_enabled` and `is_metrics_enabled` are `True` for
every configuration, so whenever the backend supplies tracer and meter
handles, `initialize_opentelemetry` installs both on the context — the
enablement flags can never be the reason a handle is missing; the
degraded branches are reachable only through the handles themselves. -/
theorem c10_enablement_flags :
    is_tracing_enabled = true ∧ is_metrics_enabled = true
    ∧ ∀ (t m : String) (pEnv cEnv : Option String) (ctx0 : Ctx),
        ∃ ctx, initialize_opentelemetry (some t) (some m) pEnv cEnv ctx0 = .ok ctx
          ∧ getattrE ctx "tracer" = .ok (.handle t)
          ∧ getattrE ctx "meter" = .ok (.handle m) := by
  refine ⟨rfl, rfl, ?_⟩
  intro t m pEnv cEnv ctx0
  have htr : getattrE (setattrCtx (setattrCtx ctx0 "tracer" (.handle t)) "meter"
      (.handle m)) "tracer" = .ok (.handle t) := by
    simp [getattrE_setattrCtx]
  have hm : getattrE (setattrCtx (setattrCtx ctx0 "tracer" (.handle t)) "meter"
      (.handle m)) "meter" = .ok (.handle m) := by
    simp [getattrE_setattrCtx]
  obtain ⟨ctx2, ps, h2, a, b⟩ := init_processors_preserves cEnv (get_profiles pEnv)
    (setattrCtx (setattrCtx ctx0 "tracer" (.handle t)) "meter" (.handle m)) []
    (.ok (.handle t)) m htr hm
  refine ⟨setattrCtx ctx2 "profile_processors" (.processors ps), ?_, ?_, ?_⟩
  · simp [initialize_opentelemetry, is_tracing_enabled, is_metrics_enabled, h2]
  · simp [getattrE_setattrCtx, a]
  · simp [getattrE_setattrCtx, b]

/-- Lookup stability of short keys through the request-header fold: every
written key extends the 20-character request-header prefix, so keys
shorter than 20 characters are untouched. -/
theorem getAttr?_reqHeaderFold (hs : List (String × String)) (a : AttrSet)
    (k : String) (hk : k.length < 20) :
    getAttr?
      (hs.foldl (fun acc kv =>
        setAttr acc ("http.request.header." ++ pyLower kv.1) (.str kv.2)) a) k
      = getAttr? a k := by
  refine getAttr?_headerFold _ _ _ _ (fun s => append_ne_of_shorter _ _ _ ?_)
  have h20 : ("http.request.header." : String).length = 20 := rfl
  omega

/-- The header-attribute stage does not disturb keys shorter than the
request-header prefix. -/
theorem headerAttrs_lookup_stable (e : EventV) (a : AttrSet) (k : String)
    (hk : k.length < 20) :
    getAttr? (request_attrs_headerAttrs e a) k = getAttr? a k := by
  simp only [request_attrs_headerAttrs]
  split
  · exact getAttr?_reqHeaderFold _ _ _ hk
  · rfl

/-- The size/body stage only writes its three request-size keys. -/
theorem sizeBody_lookup_stable (ctEnv : Option String) (e : EventV) (a : AttrSet)
    (k : String)
    (h1 : k ≠ "http.request.size") (h2 : k ≠ "http.request.body.value")
    (h3 : k ≠ "http.request.body.size") :
    getAttr? (request_attrs_sizeBody ctEnv e a) k = getAttr? a k := by
  simp only [request_attrs_sizeBody]
  repeat' split
  all_goals simp [getAttr?_setAttr, h1, h2, h3]

/-- The derived-header stage only writes its five derived keys. -/
theorem headerDerived_lookup_stable (e : EventV) (a : AttrSet) (k : String)
    (h1 : k ≠ "user_agent.original") (h2 : k ≠ "client.address")
    (h3 : k ≠ "network.peer.address") (h4 : k ≠ "network.protocol.version")
    (h5 : k ≠ "network.peer.port") :
    getAttr? (request_attrs_headerDerived e a) k = getAttr? a k := by
  simp only [request_attrs_headerDerived]
  repeat' split
  all_goals simp [getAttr?_setAttr, h1, h2, h3, h4, h5]

/-- C8: when the event has no URL, `process_request` sets `url.path` to
the event path (empty string when that is also absent), `url.scheme` to
"http", `url.full` to the empty string, and `http.route` to the event
path. -/
theorem c8_url_absent (ctEnv : Option String) (e : EventV) (hurl : e.url = none) :
    (request_attrs ctEnv e []).1 = .ok ()
    ∧ getAttr? (request_attrs ctEnv e []).2 "url.path" = some (.str (e.path.getD ""))
    ∧ getAttr? (request_attrs ctEnv e []).2 "url.scheme" = some (.str "http")
    ∧ getAttr? (request_attrs ctEnv e []).2 "url.full" = some (.str "")
    ∧ getAttr? (request_attrs ctEnv e []).2 "http.route"
        = some (.str (e.path.getD "")) := by
  have h0 : request_attrs_base e [] =
      (.ok (), [("http.request.method", .str e.method),
        ("url.path", .str (e.path.getD "")), ("url.scheme", .str "http"),
        ("url.full", .str ""), ("http.route", .str (e.path.getD ""))]) := by
    simp [request_attrs_base, hurl, optStrTruthy, setAttr]
  simp only [request_attrs, h0]
  refine ⟨by trivial, ?_, ?_, ?_, ?_⟩ <;>
  · rw [headerDerived_lookup_stable _ _ _ (by decide) (by decide) (by decide) (by decide) (by decide),
      sizeBody_lookup_stable _ _ _ _ (by decide) (by decide) (by decide),
      headerAttrs_lookup_stable _ _ _ (by decide)]
    simp [getAttr?]

/-- Witness for C8 on the concrete minimal event with path "/test". -/
theorem c8_witness :
    (request_attrs none evMin []).1 = .ok ()
    ∧ getAttr? (request_attrs none evMin []).2 "url.path" = some (.str "/test")
    ∧ getAttr? (request_attrs none evMin []).2 "url.scheme" = some (.str "http")
    ∧ getAttr? (request_attrs none evMin []).2 "url.full" = some (.str "")
    ∧ getAttr? (request_attrs none evMin []).2 "http.route" = some (.str "/test") := by
  have h := c8_url_absent none evMin rfl
  simpa [evMin] using h

/-- C1 (counterexample): on a fully initialized context (tracer and
meter present), a handler that returns "hello" does not get its value
returned by `execute_callable` — the Measured Executor never returns
`res`, so the wrapper returns `None`. -/
theorem c1_counterexample :
    (execute_callable none ctxInstrumented none (.ok (.str "hello")) 0 1).val
        = .ok .pyNone
    ∧ (Except.ok PyVal.pyNone : Except PyErr PyVal) ≠ .ok (.str "hello") := by decide

/-- C1 (amended): `_execute_measured` (and hence `execute_callable`)
returns the handler's value exactly when the meter attribute is `None`;
with a meter present it discards the handler's result and returns
`None` (assuming telemetry processing itself succeeds). -/
theorem c1_meter_gates_result (ctEnv : Option String) (ctx : Ctx)
    (event : Option EventV) (handler : Except PyErr PyVal) (t0 t1 : Int)
    (a : AttrSet) (tv mv : CtxVal)
    (htr : getattrE ctx "tracer" = .ok tv)
    (hm : getattrE ctx "meter" = .ok mv)
    (hreq : ∀ e, event = some e → (_process_request ctEnv e ctx []).val = .ok ())
    (hresp : mv ≠ .pyNone →
      ∀ b, (_process_response (measuredResult handler) t0 t1 ctx b).val = .ok ()) :
    (_execute_measured ctx a handler t0 t1).val
        = (if mv = .pyNone then handler else .ok .pyNone)
    ∧ (execute_callable ctEnv ctx event handler t0 t1).val
        = (if mv = .pyNone then handler else .ok .pyNone) := by
  have hmeas : ∀ b : AttrSet, (_execute_measured ctx b handler t0 t1).val
      = (if mv = .pyNone then handler else .ok .pyNone) := by
    intro b
    simp only [_execute_measured, hm]
    by_cases hmv : mv = .pyNone
    · rw [if_pos hmv, if_pos hmv]
      cases handler <;> simp
    · rw [if_neg hmv, if_neg hmv]
      simp only [hresp hmv b]
  refine ⟨hmeas a, ?_⟩
  simp only [execute_callable, htr]
  by_cases htv : tv = .pyNone
  · rw [if_pos htv]
    exact hmeas []
  · rw [if_neg htv]
    cases event with
    | none => simpa using hmeas []
    | some e =>
      simp only [hreq e rfl]
      simpa using hmeas (_process_request ctEnv e ctx []).attrs

/-- Witness for C1 on a context whose meter attribute is `None`. -/
theorem c1_witness :
    (execute_callable none [("tracer", CtxVal.pyNone), ("meter", CtxVal.pyNone)] none
      (.ok (.int 7)) 0 0).val = .ok (.int 7) := by
  have h := c1_meter_gates_result none
    [("tracer", CtxVal.pyNone), ("meter", CtxVal.pyNone)] none (.ok (.int 7)) 0 0 []
    .pyNone .pyNone (by decide) (by decide) (fun e he => nomatch he)
    (fun hmv => absurd rfl hmv)
  simpa using h.2

/-- A counter add is neither a `set_status(error)` nor a
`record_exception` operation. -/
theorem counterAdd_not_span_op (op : Op) (h : isCounterAdd op = true) :
    isSetStatusErr op = false ∧ isRecordExc op = false := by
  cases op <;> simp_all [isCounterAdd, isSetStatusErr, isRecordExc]

/-- C2 (counterexample): with a meter present, a raising handler is
swallowed inside the Measured Executor — `execute_callable` returns
`None` instead of re-raising, and the active span never receives a
`set_status(error)` or `record_exception` call. -/
theorem c2_counterexample :
    (execute_callable none ctxInstrumented none (.error (.handlerExc "boom")) 0 1).val
        = .ok .pyNone
    ∧ (execute_callable none ctxInstrumented none
        (.error (.handlerExc "boom")) 0 1).ops.countP isSetStatusErr = 0
    ∧ (execute_callable none ctxInstrumented none
        (.error (.handlerExc "boom")) 0 1).ops.countP isRecordExc = 0 := by decide

/-- C2 (amended): with a tracer present and the meter attribute `None`,
a raising handler makes `execute_callable` re-raise that same exception
after exactly one `set_status(error)` and exactly one
`record_exception` (recording that exception) on the span. -/
theorem c2_no_meter_reraise (ctEnv : Option String) (ctx : Ctx)
    (event : Option EventV) (err : PyErr) (t0 t1 : Int) (tv : CtxVal)
    (htr : getattrE ctx "tracer" = .ok tv) (hnt : tv ≠ .pyNone)
    (hm : getattrE ctx "meter" = .ok .pyNone)
    (hreq : ∀ e, event = some e → (_process_request ctEnv e ctx []).val = .ok ()) :
    (execute_callable ctEnv ctx event (.error err) t0 t1).val = .error err
    ∧ (execute_callable ctEnv ctx event (.error err) t0 t1).ops.countP isSetStatusErr = 1
    ∧ (execute_callable ctEnv ctx event (.error err) t0 t1).ops.filter isRecordExc
        = [.recordException err] := by
  have hmeas : ∀ b : AttrSet, _execute_measured ctx b (.error err) t0 t1
      = ⟨.error err, b, []⟩ := by
    intro b
    simp [_execute_measured, hm]
  simp only [execute_callable, htr]
  rw [if_neg hnt]
  cases event with
  | none =>
    rw [hmeas []]
    refine ⟨by trivial, ?_, ?_⟩ <;>
      simp [List.countP_cons, List.countP_nil, isSetStatusErr, isRecordExc]
  | some e =>
    simp only [hreq e rfl, hmeas (_process_request ctEnv e ctx []).attrs]
    have hz1 : (_process_request ctEnv e ctx []).ops.countP isSetStatusErr = 0 := by
      rw [List.countP_eq_zero]
      intro op hop
      simp [(counterAdd_not_span_op op
        (_process_request_ops_counterOnly ctEnv e ctx [] op hop)).1]
    have hz2 : (_process_request ctEnv e ctx []).ops.filter isRecordExc = [] := by
      rw [List.filter_eq_nil_iff]
      intro op hop
      simp [(counterAdd_not_span_op op
        (_process_request_ops_counterOnly ctEnv e ctx [] op hop)).2]
    refine ⟨by trivial, ?_, ?_⟩ <;>
      simp [List.countP_cons, List.countP_append, List.filter_append, hz1, hz2,
        isSetStatusErr, isRecordExc]

/-- Witness for C2: tracer present, meter attribute `None`, handler
raising "boom". -/
theorem c2_witness :
    (execute_callable none [("tracer", CtxVal.handle "t"), ("meter", CtxVal.pyNone)]
      none (.error (.handlerExc "boom")) 0 0).val = .error (.handlerExc "boom")
    ∧ (execute_callable none [("tracer", CtxVal.handle "t"), ("meter", CtxVal.pyNone)]
        none (.error (.handlerExc "boom")) 0 0).ops.countP isSetStatusErr = 1
    ∧ (execute_callable none [("tracer", CtxVal.handle "t"), ("meter", CtxVal.pyNone)]
        none (.error (.handlerExc "boom")) 0 0).ops.filter isRecordExc
        = [.recordException (.handlerExc "boom")] :=
  c2_no_meter_reraise none [("tracer", CtxVal.handle "t"), ("meter", CtxVal.pyNone)]
    none (.handlerExc "boom") 0 0 (.handle "t") (by decide) (by decide) (by decide)
    (fun e he => nomatch he)

/-- C4 (counterexample): a handler returning the integer 42 on the
instrumented context makes the invocation fail with the `TypeError`
raised by `len(response)` inside response processing — the telemetry
failure aborts the call instead of being skipped. -/
theorem c4_counterexample :
    (execute_callable none ctxInstrumented none (.ok (.int 42)) 0 1).val
      = .error (.typeError "object has no len") := by decide

/-- C4 (amended): only the `X-Forwarded-Port` `int()` conversion is
guarded: its failure is caught, the `network.peer.port` attribute is
omitted, and request processing completes (for instance whenever the
event carries no URL).  Other derivation failures abort the invocation:
the `parsed_url.port` property read raises an uncaught `ValueError` for
a URL with a non-integer port, and `len(response)` raises an uncaught
`TypeError` for a raw length-less handler result. -/
theorem c4_only_port_guarded :
    (∀ (e : EventV) (a : AttrSet) (p : String),
        hget (e.headers.getD []) "X-Forwarded-Port" = some p → parsePyInt p = none →
        getAttr? (request_attrs_headerDerived e a) "network.peer.port"
          = getAttr? a "network.peer.port")
    ∧ (∀ (ctEnv : Option String) (e : EventV) (a : AttrSet), e.url = none →
        (HTTPProfileProcessor.process_request ctEnv e ctxInstrumented a).val = .ok ())
    ∧ (∀ (ctEnv : Option String) (a : AttrSet),
        (HTTPProfileProcessor.process_request ctEnv
          ⟨"GET", some "http://h:abc/", none, none, none, none⟩
          ctxInstrumented a).val
          = .error (.valueError "Port could not be cast to integer value"))
    ∧ (∀ n : Int, (execute_callable none ctxInstrumented none (.ok (.int n)) 0 1).val
        = .error (.typeError "object has no len")) := by
  refine ⟨?_, ?_, ?_, ?_⟩
  · intro e a p hp hparse
    simp only [request_attrs_headerDerived]
    repeat' split
    all_goals simp_all [getAttr?_setAttr]
  · intro ctEnv e a hurl
    have h0 : (request_attrs_base e a).1 = .ok () := by
      simp [request_attrs_base, hurl, optStrTruthy]
    have h1 : (request_attrs ctEnv e a).1 = .ok () := by
      simp only [request_attrs]
      split
      · rename_i err a2 heq
        rw [heq] at h0
        simp at h0
      · rfl
    rw [process_request_counter_spec ctEnv e ctxInstrumented a
      (.handle "http.server.active_requests") h1 (by decide) (by decide)]
  · intro ctEnv a
    have hbase : (request_attrs_base
        ⟨"GET", some "http://h:abc/", none, none, none, none⟩ a).1
        = .error (.valueError "Port could not be cast to integer value") := by
      simp [request_attrs_base, optStrTruthy, urlparse, splitOnceStr, hostinfo,
        ParsedUrl.port, parsePyInt, pyStrip, digitsToNat?]
    simp only [HTTPProfileProcessor.process_request, request_attrs]
    split
    · rename_i err a2 heq
      split at heq
      · rename_i err2 a3 heq2
        rw [heq2] at hbase
        simp_all
      · rename_i u a3 heq2
        rw [heq2] at hbase
        simp at hbase
    · rename_i u a2 heq
      split at heq
      · simp at heq
      · rename_i u2 a3 heq2
        rw [heq2] at hbase
        simp at hbase
  · intro n
    have h1 : getattrE ctxInstrumented "tracer" = .ok (.handle "tracer") := by decide
    have h2 : getattrE ctxInstrumented "meter" = .ok (.handle "meter") := by decide
    have h3 : getattrD ctxInstrumented "profile_processors" (.processors [])
        = .processors [.http] := by decide
    have h4 : getattrE ctxInstrumented "content_tracing_enabled"
        = .ok (.bool false) := by decide
    simp only [execute_callable, h1]
    rw [if_neg (by decide)]
    simp only [_execute_measured, h2]
    rw [if_neg (by decide)]
    simp only [measuredResult, _process_response, h3, runProcessorsResponse,
      HTTPProfileProcessor.process_response, response_attrs, h4]
    simp [ctxTruthy, pyLen]

/-- Witness for C4 at the concrete port value "abc", a concrete
malformed-URL event, and handler result 3. -/
theorem c4_witness :
    getAttr? (request_attrs_headerDerived
        ⟨"GET", none, some "/test", some [("X-Forwarded-Port", "abc")], none, none⟩ [])
        "network.peer.port" = getAttr? [] "network.peer.port"
    ∧ (HTTPProfileProcessor.process_request none evMin ctxInstrumented []).val = .ok ()
    ∧ (HTTPProfileProcessor.process_request none
        ⟨"GET", some "http://h:abc/", none, none, none, none⟩ ctxInstrumented []).val
        = .error (.valueError "Port could not be cast to integer value")
    ∧ (execute_callable none ctxInstrumented none (.ok (.int 3)) 0 1).val
        = .error (.typeError "object has no len") :=
  ⟨c4_only_port_guarded.1
      ⟨"GET", none, some "/test", some [("X-Forwarded-Port", "abc")], none, none⟩ []
      "abc" (by decide) (by decide),
   c4_only_port_guarded.2.1 none evMin [] rfl,
   c4_only_port_guarded.2.2.1 none [],
   c4_only_port_guarded.2.2.2 3⟩

/-- C5 (counterexample): on the instrumented context, a handler
returning `None` (a raw value with no `len`) gets its invocation
aborted between the two counter updates: the active-request counter
receives the `+1` add but never the `-1` add. -/
theorem c5_counterexample :
    (execute_callable none ctxInstrumented (some evMin) (.ok .pyNone) 0 1).ops.filter
        isCounterAdd
      = [.counterAdd (.handle "http.server.active_requests") 1
          [("http.request.method", .str "GET"), ("url.scheme", .str "http")]] := by decide

/-- C5 (amended): on the instrumented path (tracer, meter, HTTP
processor and counter all present): when request-side attribute
building succeeds and response-side attribute processing completes, the
invocation's telemetry contains exactly two counter adds, in order a
`+1` (from request processing) and a `-1` (from response processing),
both tagged with the same projection of the request attributes onto the
active-request tag keys.  When request-side attribute building raises
(for example the uncaught `ValueError` from `parsed_url.port` on a
malformed URL), the invocation aborts before the `+1` and the counter
receives no adds at all. -/
theorem c5_counter_balance (ctEnv : Option String) (ctx : Ctx) (e : EventV)
    (handler : Except PyErr PyVal) (t0 t1 : Int) (tv mv c : CtxVal)
    (htr : getattrE ctx "tracer" = .ok tv) (hnt : tv ≠ .pyNone)
    (hm : getattrE ctx "meter" = .ok mv) (hnm : mv ≠ .pyNone)
    (hp : getattrD ctx "profile_processors" (.processors []) = .processors [.http])
    (hc : getattrE ctx "meter_active_requests_counter" = .ok c)
    (ht : ctxTruthy c = true) :
    ((request_attrs ctEnv e []).1 = .ok () →
      (response_attrs (measuredResult handler) ctx (request_attrs ctEnv e []).2).1
        = .ok () →
      (execute_callable ctEnv ctx (some e) handler t0 t1).ops.filter isCounterAdd
        = [.counterAdd c 1
            (_filter_attrs (request_attrs ctEnv e []).2 ACTIVE_REQUEST_COUNTER_ATTRS),
           .counterAdd c (-1)
            (_filter_attrs (request_attrs ctEnv e []).2 ACTIVE_REQUEST_COUNTER_ATTRS)])
    ∧ (∀ err, (request_attrs ctEnv e []).1 = .error err →
        (execute_callable ctEnv ctx (some e) handler t0 t1).ops.filter isCounterAdd
          = []) := by
  constructor
  · intro hreqOk hresp
    have hreq := _process_request_spec ctEnv e ctx c hreqOk hp hc ht
    have hrsp := _process_response_counter_spec (measuredResult handler) t0 t1 ctx
        (request_attrs ctEnv e []).2 c hp hc ht hresp
    have hstab := response_attrs_filter_active (measuredResult handler) ctx
        (request_attrs ctEnv e []).2
    rw [hstab] at hrsp
    simp only [execute_callable, htr]
    rw [if_neg hnt]
    simp only [hreq]
    simp only [_execute_measured, hm]
    rw [if_neg hnm]
    rcases hval : (_process_response (measuredResult handler) t0 t1 ctx
        (request_attrs ctEnv e []).2).val with err | u
    · simp only [hval]
      simp [List.filter_append, isCounterAdd, ht, hrsp.1]
    · simp only [hval]
      simp [List.filter_append, isCounterAdd, ht, hrsp.1]
  · intro err herr
    have hreq := _process_request_error_spec ctEnv e ctx err hp herr
    simp only [execute_callable, htr]
    rw [if_neg hnt]
    simp only [hreq]
    simp [isCounterAdd]

/-- Witness for C5: instrumented context, minimal GET event, handler
returning the sized raw value "hi". -/
theorem c5_witness :
    (execute_callable none ctxInstrumented (some evMin) (.ok (.str "hi")) 0 1).ops.filter
        isCounterAdd
      = [.counterAdd (.handle "http.server.active_requests") 1
          [("http.request.method", .str "GET"), ("url.scheme", .str "http")],
         .counterAdd (.handle "http.server.active_requests") (-1)
          [("http.request.method", .str "GET"), ("url.scheme", .str "http")]] := by
  rw [(c5_counter_balance none ctxInstrumented evMin (.ok (.str "hi")) 0 1
    (.handle "tracer") (.handle "meter") (.handle "http.server.active_requests")
    (by decide) (by decide) (by decide) (by decide) (by decide) (by decide)
    (by decide)).1 (by decide) (by decide)]
  decide

end ObservableExecutor

